import Mathlib

/-! Verification of the do-tools repository: a shallow embedding of the
    database pull pipeline (`Cmd.pull` in src/dot/__init__.py together with
    `Executor._pull`, `_create_and_drop_exist`, `_dump`, `_restore`,
    `_clean_temporary`, `Exec.capture_dump`, `Exec.capture_restore` in
    src/dot/helpers.py) and of the workload aggregation (`k8s_apps` in
    src/dot/helpers.py), with theorems settling the specification claims. -/

/-! ## Python exceptions and error panels -/

/-- Python exception values relevant to the pull pipeline.
    `systemExit` models `sys.exit(code)` (a `BaseException`, not an
    `Exception`); `timeoutExpired` models `subprocess.TimeoutExpired` raised
    by `Popen.wait(3)`; `duplicateDatabase` models
    `psycopg.errors.DuplicateDatabase`; `pgError` models any other member of
    the `PG_ERRORS` tuple; `dotError` models the repository's `DotError`. -/
inductive PyExc where
  | duplicateDatabase
  | pgError (msg : String)
  | dotError (msg : String)
  | otherExc (msg : String)
  | timeoutExpired
  | systemExit (code : Nat)
  deriving DecidableEq

/-- Membership in the `PG_ERRORS` tuple of src/dot/helpers.py
    (`DatabaseError`, `OperationalError`, `InterfaceError`);
    `DuplicateDatabase` is a subclass of `DatabaseError`. -/
def isPgErrorClass : PyExc → Bool
  | .duplicateDatabase => true
  | .pgError _ => true
  | _ => false

/-- Subclass test against Python's `Exception`: every modelled exception
    except `SystemExit`, which derives only from `BaseException`. -/
def isExceptionClass : PyExc → Bool
  | .systemExit _ => false
  | _ => true

/-- The text of an exception as interpolated into an error panel. -/
def excMsg : PyExc → String
  | .duplicateDatabase => "duplicate database"
  | .pgError m => m
  | .dotError m => m
  | .otherExc m => m
  | .timeoutExpired => "TimeoutExpired"
  | .systemExit _ => "SystemExit"

/-- The members of the `Error` enum of src/dot/helpers.py that the pull
    pipeline can print. -/
inductive Error where
  | CFG_NOT_LOADED
  | DB_PULL_EMPTY
  | DB_REMOTE_CFG_FOUND
  | DB_LOCAL_CFG_LOAD
  | DB_PG
  | DB_PREPARE_LOCAL
  | DB_UNKNOWN
  deriving DecidableEq

/-- A panel printed to the console: `Error.error(kind, details)`,
    `Error.found(alias, variants)` (the alternatives-listing NOT FOUND
    panel), or the `Msg.info` success panel.  Rich markup styling is
    presentation glue and is not modelled. -/
inductive Panel where
  | error (kind : Error) (details : List String)
  | found (aliasName : String) (variants : List String)
  | info (text : String)
  deriving DecidableEq

/-! ## Configuration data (ConfigModel of src/dot/helpers.py) -/

/-- `DBModel`: one database connection configuration. -/
structure DBConf where
  host : String
  name : String
  user : String
  password : String
  port : Nat
  deriving DecidableEq

/-- `EnvModel`: one environment with its kube config path and pull map.
    The pull map is modelled as an association list, preserving the key
    order of the YAML mapping. -/
structure EnvConf where
  k8s : String
  pull : List (String × DBConf)
  deriving DecidableEq

/-- `ConfigModel`: the validated configuration document. -/
structure Config where
  pg_local : DBConf
  stage : EnvConf
  prod : EnvConf
  deriving DecidableEq

/-- Dictionary access `self.config[self.env]` for the two environment keys
    of the validated schema. -/
def envConf (cfg : Config) (env : String) : Option EnvConf :=
  if env = "stage" then some cfg.stage
  else if env = "prod" then some cfg.prod
  else none

/-- Lookup of `self.config[env]["pull"][alias]`. -/
def lookupPull : List (String × DBConf) → String → Option DBConf
  | [], _ => none
  | p :: rest, a => if p.1 = a then some p.2 else lookupPull rest a

/-! ## Observable world state of a pull invocation -/

/-- A spawned subprocess, carrying exactly the data the source interpolates
    into `Exec.cmd_dump()` / `Exec.cmd_restore()` command lines. -/
inductive Proc where
  | dump (cfg : DBConf) (path : String)
  | restore (cfg : DBConf) (dbname : String) (path : String)
  deriving DecidableEq

/-- The observable state threaded through a pull invocation: the file
    system (set of existing paths), the spawned subprocesses, the SQL
    statements handed to `cursor.execute`, the panels printed to the
    console, and the raw lines forwarded to the progress status sink. -/
structure World where
  fs : List String
  spawned : List Proc
  sqls : List String
  printed : List Panel
  statusUpdates : List String
  deriving DecidableEq

/-- The initial world: nothing on disk, nothing spawned or printed. -/
def world0 : World :=
  { fs := [], spawned := [], sqls := [], printed := [], statusUpdates := [] }

/-- Print a panel to the console. -/
def printPanel (w : World) (p : Panel) : World :=
  { w with printed := w.printed ++ [p] }

/-- Record a file as existing (idempotent). -/
def addFile (fs : List String) (p : String) : List String :=
  if p ∈ fs then fs else fs ++ [p]

/-! ## Pure helpers from src/dot/helpers.py -/

/-- `dba(env, alias)`: the local database name. -/
def dba (env aliasName : String) : String :=
  env ++ "_" ++ aliasName

/-- `dba_file(workdir, real_db_name)`: the dump file path under the cache
    directory (the `os.makedirs` side effect is irrelevant here). -/
def dba_file (workdir real_db_name : String) : String :=
  workdir ++ "/.cache/" ++ real_db_name ++ ".tar.gz"

/-- `Msg.pull_info(env, alias, ...)` with the rich markup stripped. -/
def pull_info (env aliasName : String) : String :=
  "Database " ++ aliasName ++ " was pulled to local: " ++ dba env aliasName

/-- Whether the pattern matches at the head of the character list. -/
def subAt : List Char → List Char → Bool
  | [], _ => true
  | _ :: _, [] => false
  | a :: as, b :: bs => a = b && subAt as bs

/-- Whether the pattern occurs anywhere in the character list. -/
def hasSub (pat : List Char) : List Char → Bool
  | [] => subAt pat []
  | c :: cs => subAt pat (c :: cs) || hasSub pat cs

/-- Python's substring test `pat in s`. -/
def strHas (s pat : String) : Bool :=
  hasSub pat.toList s.toList

/-! ## The pull pipeline -/

/-- The outcome of every external interaction of one pull invocation, fixed
    up front: the result of each `cursor.execute` in
    `_create_and_drop_exist` (`none` = success, `some e` = the raised
    exception), the output lines of the dump and restore subprocesses,
    whether `pg_dump -f` wrote a (possibly partial) dump file, and whether
    each `Popen.wait(3)` call timed out. -/
structure PullOracle where
  createRes1 : Option PyExc
  dropRes : Option PyExc
  createRes2 : Option PyExc
  dumpLines : List String
  dumpCreatesFile : Bool
  dumpWaitTimesOut : Bool
  restoreLines : List String
  restoreWaitTimesOut : Bool

/-- `Executor._clean_temporary(real_dump_path)`: remove the path if it
    exists. -/
def clean_temporary (w : World) (real_dump_path : String) : World :=
  { w with fs := w.fs.filter (fun p => p ≠ real_dump_path) }

/-- One `cursor.execute(stmt)`: the statement reaches the server (and is
    recorded) whether or not it then fails. -/
def executeSql (w : World) (stmt : String) (res : Option PyExc) :
    World × Option PyExc :=
  ({ w with sqls := w.sqls ++ [stmt] }, res)

/-- `Executor._create_and_drop_exist(real_name)`.  The `except
    DuplicateDatabase` handler issues one DROP and one CREATE; an exception
    raised inside that handler is NOT caught by the sibling
    `except Exception` clause of the same try statement, so it propagates.
    Any other exception from the first CREATE hits the `except Exception`
    clause, which prints `DB_PREPARE_LOCAL` and exits via `self._error`. -/
def create_and_drop_exist (o : PullOracle) (real_name : String) (w : World) :
    World × Option PyExc :=
  let createStmt := "CREATE DATABASE " ++ real_name ++ ";"
  let dropStmt := "DROP DATABASE " ++ real_name ++ " WITH (FORCE);"
  let r1 := executeSql w createStmt o.createRes1
  match r1.2 with
  | none => (r1.1, none)
  | some PyExc.duplicateDatabase =>
    let r2 := executeSql r1.1 dropStmt o.dropRes
    match r2.2 with
    | some e => (r2.1, some e)
    | none =>
      let r3 := executeSql r2.1 createStmt o.createRes2
      (r3.1, r3.2)
  | some e =>
    if isExceptionClass e then
      (printPanel r1.1 (Panel.error Error.DB_PREPARE_LOCAL [excMsg e]),
       some (PyExc.systemExit 1))
    else (r1.1, some e)

/-- `Executor._pg_remote(alias)`: config lookup; on any failure it prints
    `DB_REMOTE_CFG_FOUND` and exits. -/
def pg_remote (cfg : Config) (env aliasName : String) (w : World) :
    World × Except PyExc DBConf :=
  match envConf cfg env with
  | some ec =>
    match lookupPull ec.pull aliasName with
    | some c => (w, Except.ok c)
    | none =>
      (printPanel w (Panel.error Error.DB_REMOTE_CFG_FOUND []),
       Except.error (PyExc.systemExit 1))
  | none =>
    (printPanel w (Panel.error Error.DB_REMOTE_CFG_FOUND []),
     Except.error (PyExc.systemExit 1))

/-- The exception raised by `Exec.capture_dump`: it scans the dump output
    in order and raises `DotError` at the first line containing the
    substring "error:". -/
def capture_dump_res : List String → Option PyExc
  | [] => none
  | l :: rest =>
    if strHas l "error:" then
      some (PyExc.dotError "Check pull connection params")
    else capture_dump_res rest

/-- The lines `Exec.capture_dump` forwards to the status sink: those
    strictly before the first line containing "error:" (the raise happens
    before the `Status.pull_update` call for the offending line). -/
def capture_dump_outs : List String → List String
  | [] => []
  | l :: rest =>
    if strHas l "error:" then []
    else l :: capture_dump_outs rest

/-- `Exec.capture_restore`: forwards every output line to the status sink
    and never raises — restore output is not inspected for errors. -/
def capture_restore (lines : List String) (w : World) :
    World × Option PyExc :=
  ({ w with statusUpdates := w.statusUpdates ++ lines }, none)

/-- `Executor._dump(alias, real_path, ref)`: resolve the remote config
    (exits on failure), spawn `pg_dump` (whose side effect may write a
    possibly partial dump file at `real_path`), stream its output through
    `capture_dump` — any exception there is caught by `except Exception`
    which prints `DB_UNKNOWN` and exits — and finally `Popen.wait(3)`,
    which raises `TimeoutExpired` if the process has not exited, replacing
    any in-flight exception. -/
def dump_step (o : PullOracle) (cfg : Config) (env aliasName path : String)
    (w : World) : World × Option PyExc :=
  match pg_remote cfg env aliasName w with
  | (w1, Except.error e) => (w1, some e)
  | (w1, Except.ok remote) =>
    let w2 := { w1 with spawned := w1.spawned ++ [Proc.dump remote path] }
    let w3 := if o.dumpCreatesFile then { w2 with fs := addFile w2.fs path }
              else w2
    let w4 := { w3 with
      statusUpdates := w3.statusUpdates ++ capture_dump_outs o.dumpLines }
    let afterTry : World × Option PyExc :=
      match capture_dump_res o.dumpLines with
      | none => (w4, none)
      | some e =>
        if isExceptionClass e then
          (printPanel w4 (Panel.error Error.DB_UNKNOWN [excMsg e]),
           some (PyExc.systemExit 1))
        else (w4, some e)
    if o.dumpWaitTimesOut then (afterTry.1, some PyExc.timeoutExpired)
    else afterTry

/-- `Executor._restore(alias, real_alias, ref)`: spawn `pg_restore` against
    the local config and the dump file, stream its output through
    `capture_restore` (which never raises), and finally `Popen.wait(3)`,
    which raises `TimeoutExpired` if the process has not exited. -/
def restore_step (o : PullOracle) (cfg : Config) (real_alias appDir : String)
    (w : World) : World × Option PyExc :=
  let path := dba_file appDir real_alias
  let w1 := { w with
    spawned := w.spawned ++ [Proc.restore cfg.pg_local real_alias path] }
  let r := capture_restore o.restoreLines w1
  if o.restoreWaitTimesOut then (r.1, some PyExc.timeoutExpired)
  else r

/-- `Executor._pull(alias)`: compute the job names, delete any stale dump
    file, then prepare the local database, dump and restore, each failure
    short-circuiting the remaining steps. -/
def pull_impl (o : PullOracle) (cfg : Config) (env aliasName appDir : String)
    (w : World) : World × Option PyExc :=
  let real_name := dba env aliasName
  let file := dba_file appDir real_name
  let w1 := clean_temporary w file
  let r1 := create_and_drop_exist o real_name w1
  match r1.2 with
  | some e => (r1.1, some e)
  | none =>
    let r2 := dump_step o cfg env aliasName file r1.1
    match r2.2 with
    | some e => (r2.1, some e)
    | none => restore_step o cfg real_name appDir r2.1

/-- `Cmd.pull(alias)`: run `_pull`; catch `PG_ERRORS` as a `DB_PG` panel
    and any other `Exception` (such as `DotError` or `TimeoutExpired`) as a
    `DB_UNKNOWN` panel, both exiting via `self._error`; `SystemExit`
    propagates uncaught.  The `finally` block calls
    `self._clean_temporary(alias)` — note it passes the bare alias, not the
    dump file path.  The success info panel prints only when no exception
    propagated. -/
def cmd_pull (o : PullOracle) (cfg : Config) (env aliasName appDir : String)
    (w : World) : World × Option PyExc :=
  let r := pull_impl o cfg env aliasName appDir w
  let handled : World × Option PyExc :=
    match r.2 with
    | none => (r.1, none)
    | some e =>
      if isPgErrorClass e then
        (printPanel r.1 (Panel.error Error.DB_PG [excMsg e]),
         some (PyExc.systemExit 1))
      else if isExceptionClass e then
        (printPanel r.1 (Panel.error Error.DB_UNKNOWN [excMsg e]),
         some (PyExc.systemExit 1))
      else (r.1, some e)
  let w2 := clean_temporary handled.1 aliasName
  match handled.2 with
  | some e => (w2, some e)
  | none => (printPanel w2 (Panel.info (pull_info env aliasName)), none)

/-- `Cmd.check_db_alias(alias)`: resolve the environment's pull map (a
    missing map prints `DB_PULL_EMPTY` and exits) and require the alias to
    be among its keys, otherwise print the `Error.found` panel listing that
    environment's configured aliases and exit. -/
def check_db_alias (cfg : Config) (env aliasName : String) (w : World) :
    World × Option PyExc :=
  match envConf cfg env with
  | none =>
    (printPanel w (Panel.error Error.DB_PULL_EMPTY []),
     some (PyExc.systemExit 1))
  | some ec =>
    let available := ec.pull.map Prod.fst
    if aliasName ∈ available then (w, none)
    else (printPanel w (Panel.found aliasName available),
          some (PyExc.systemExit 1))

/-- `Executor._init_console`: reject an environment name outside the
    `term_envs` keys with an `Error.found` panel and exit. -/
def init_console_check (env : String) (w : World) : World × Option PyExc :=
  if env = "stage" ∨ env = "prod" then (w, none)
  else (printPanel w (Panel.found env ["stage", "prod"]),
        some (PyExc.systemExit 1))

/-- `Interface.pull(db, env)` from src/dot.py: construct the `Cmd` (whose
    console init validates the environment), check the alias, and only then
    run the pull. -/
def interface_pull (o : PullOracle) (cfg : Config) (db env appDir : String)
    (w : World) : World × Option PyExc :=
  let c := init_console_check env w
  match c.2 with
  | some e => (c.1, some e)
  | none =>
    let chk := check_db_alias cfg env db c.1
    match chk.2 with
    | some e => (chk.1, some e)
    | none => cmd_pull o cfg env db appDir chk.1

/-! ## Workload aggregation (k8s_apps of src/dot/helpers.py) -/

/-- `AppInfo`: one record per distinct container name.  `diff` is the
    timedelta between the fixed-offset clock reading and the container's
    running start time, modelled as an integer. -/
structure AppInfo where
  diff : Int
  aliasName : String
  deployed : String
  restart_count : Nat
  pod_ips : List String
  host_ip : String
  exec : Option String
  instances : Nat
  on_rebuild : Bool
  deriving DecidableEq

/-- One entry of `pod.spec.containers`: a name and the `args` list
    (an absent or empty `args` is modelled as the empty list, both being
    falsy in Python). -/
structure PodSpecContainer where
  name : String
  args : List String
  deriving DecidableEq

/-- One entry of `pod.status.container_statuses`.  `started_at` collapses
    `cont.state.running` being `None` and a falsy `started_at` attribute
    into `none`; a present running start time is the instant `some t`. -/
structure ContainerStatus where
  name : String
  ready : Bool
  started_at : Option Int
  restart_count : Nat
  deriving DecidableEq

/-- The pod fields `k8s_apps` reads.  An absent (`None`) and an empty
    container-status list are both falsy in Python and are both modelled
    as the empty list. -/
structure PodStatus where
  container_statuses : List ContainerStatus
  pod_ip : String
  host_ip : String
  deriving DecidableEq

/-- A pod as returned by `list_namespaced_pod` (the `limit=150` paging is
    applied by the orchestrator before this list is produced). -/
structure Pod where
  metadata_name : String
  spec_containers : List PodSpecContainer
  status : PodStatus
  deriving DecidableEq

/-- `humanize.naturaltime(value=diff)`: an external library rendering the
    timedelta as text, modelled as a pure function of the timedelta. -/
def verbose_time (diff : Int) : String :=
  toString diff ++ " seconds"

/-- `_fmt_runargs(container, pod)`: the joined `args` of the first entry of
    `pod.spec.containers` whose name matches the container's, `None` when no
    entry matches or its `args` list is falsy. -/
def fmt_runargs (cont : ContainerStatus) (pod : Pod) : Option String :=
  match pod.spec_containers.find? (fun spec => spec.name == cont.name) with
  | none => none
  | some spec =>
    if spec.args.isEmpty then none
    else some (String.intercalate " " spec.args)

/-- Dictionary lookup `_apps[name]` over the insertion-ordered mapping,
    modelled as an association list. -/
def lookupApp : List (String × AppInfo) → String → Option AppInfo
  | [], _ => none
  | p :: rest, name => if p.1 = name then some p.2 else lookupApp rest name

/-- In-place mutation of the record stored under `name`. -/
def updateApp (apps : List (String × AppInfo)) (name : String)
    (info : AppInfo) : List (String × AppInfo) :=
  apps.map (fun p => if p.1 = name then (p.1, info) else p)

/-- The body of the inner loop of `k8s_apps`, one container status of one
    pod, acting on the state `(_apps, _rebuilds)`.  A falsy container name
    is skipped; a container that is not ready or has no running start time
    appends its name to `_rebuilds`; otherwise the instance either creates
    the record for its name or, when its time-since-start is strictly
    smaller than the recorded one, overwrites the canonical fields, appends
    its pod IP and increments the replica count. -/
def k8s_step_cont (tznow : Int) (pod : Pod)
    (st : List (String × AppInfo) × List String) (cont : ContainerStatus) :
    List (String × AppInfo) × List String :=
  if cont.name = "" then st
  else
    match cont.started_at with
    | none => (st.1, st.2 ++ [cont.name])
    | some started =>
      if cont.ready then
        let diff := tznow - started
        match lookupApp st.1 cont.name with
        | none =>
          (st.1 ++ [(cont.name,
            { diff := diff
              aliasName := pod.metadata_name
              deployed := verbose_time diff
              restart_count := cont.restart_count
              pod_ips := [pod.status.pod_ip]
              host_ip := pod.status.host_ip
              exec := fmt_runargs cont pod
              instances := 1
              on_rebuild := st.2.contains cont.name })], st.2)
        | some prev =>
          if diff < prev.diff then
            (updateApp st.1 cont.name
              { prev with
                aliasName := pod.metadata_name
                deployed := verbose_time diff
                restart_count := cont.restart_count
                pod_ips := prev.pod_ips ++ [pod.status.pod_ip]
                host_ip := pod.status.host_ip
                instances := prev.instances + 1
                exec := fmt_runargs cont pod
                diff := diff
                on_rebuild := st.2.contains cont.name }, st.2)
          else st
      else (st.1, st.2 ++ [cont.name])

/-- The body of the outer loop of `k8s_apps`: a pod with a falsy
    container-status list is skipped entirely. -/
def k8s_step_pod (tznow : Int)
    (st : List (String × AppInfo) × List String) (pod : Pod) :
    List (String × AppInfo) × List String :=
  if pod.status.container_statuses.isEmpty then st
  else pod.status.container_statuses.foldl (k8s_step_cont tznow pod) st

/-- `k8s_apps(k8s, env)`: fold both loops over the pod list returned by the
    orchestrator, starting from an empty mapping and an empty rebuild set,
    and return the mapping.  The clock reading `_tznow` is a parameter. -/
def k8s_apps (tznow : Int) (pods : List Pod) : List (String × AppInfo) :=
  (pods.foldl (k8s_step_pod tznow) ([], [])).1

/-! ## Concrete inputs used by the claim checks -/

/-- A remote database configured under stage. -/
def exchangeDB : DBConf :=
  { host := "db.stage.example", name := "exchange", user := "u",
    password := "pw", port := 5432 }

/-- A remote database configured under prod. -/
def billingDB : DBConf :=
  { host := "db.prod.example", name := "billing", user := "u",
    password := "pw", port := 5432 }

/-- The local postgres configuration. -/
def localDB : DBConf :=
  { host := "localhost", name := "postgres", user := "local",
    password := "lpw", port := 5432 }

/-- A validated configuration: alias "exchange" exists only under stage,
    alias "billing" only under prod. -/
def demoConfig : Config :=
  { pg_local := localDB
    stage := { k8s := "stage.yml", pull := [("exchange", exchangeDB)] }
    prod := { k8s := "prod.yml", pull := [("billing", billingDB)] } }

/-- An oracle for a fully successful pull: every statement succeeds, the
    dump writes its file and emits one benign line, the restore emits one
    benign line, no wait times out. -/
def okOracle : PullOracle :=
  { createRes1 := none, dropRes := none, createRes2 := none
    dumpLines := ["pg_dump: last built-in OID is 16383"]
    dumpCreatesFile := true, dumpWaitTimesOut := false
    restoreLines := ["pg_restore: creating TABLE public.users"]
    restoreWaitTimesOut := false }

/-- A ready pod with a single container status and no spec args. -/
def mkReadyPod (podName ip hostIp contName : String) (rc : Nat)
    (started : Int) : Pod :=
  { metadata_name := podName,
    spec_containers := [],
    status :=
      { container_statuses :=
          [{ name := contName, ready := true, started_at := some started,
             restart_count := rc }],
        pod_ip := ip,
        host_ip := hostIp } }

/-- A ready instance of container "web" started at time 100. -/
def podWeb1 : Pod := mkReadyPod "web-1" "10.0.0.1" "h1" "web" 0 100

/-- A second ready instance of container "web", started earlier (time 50),
    so it is staler than `podWeb1`. -/
def podWeb2 : Pod := mkReadyPod "web-2" "10.0.0.2" "h2" "web" 3 50

/-- A not-ready instance of container "web" (rebuilding). -/
def podWebRebuild : Pod :=
  { metadata_name := "web-9",
    spec_containers := [],
    status :=
      { container_statuses :=
          [{ name := "web", ready := false, started_at := some 40,
             restart_count := 7 }],
        pod_ip := "10.0.0.9",
        host_ip := "h9" } }

/-- A pod with an empty container-status list. -/
def podNoStatuses : Pod :=
  { metadata_name := "empty-1"
    spec_containers := []
    status := { container_statuses := [], pod_ip := "10.0.0.3",
                host_ip := "h3" } }

/-! ## Helper lemmas -/

/-- If some dump output line contains "error:", `capture_dump` raises the
    `DotError`. -/
theorem capture_dump_res_err (lines : List String)
    (h : ∃ l ∈ lines, strHas l "error:" = true) :
    capture_dump_res lines
      = some (PyExc.dotError "Check pull connection params") := by
  induction lines with
  | nil => simp at h
  | cons l rest ih =>
    by_cases hl : strHas l "error:" = true
    · simp [capture_dump_res, hl]
    · have hrest : ∃ x ∈ rest, strHas x "error:" = true := by
        rcases h with ⟨x, hx, hxe⟩
        rcases List.mem_cons.mp hx with rfl | hxr
        · exact absurd hxe hl
        · exact ⟨x, hxr, hxe⟩
      simp [capture_dump_res, hl, ih hrest]

/-- A fold preserves any invariant its step preserves. -/
theorem foldl_pres {α σ : Type} (P : σ → Prop) (f : σ → α → σ)
    (hf : ∀ s a, P s → P (f s a)) :
    ∀ (l : List α) (s : σ), P s → P (l.foldl f s) := by
  intro l
  induction l with
  | nil => intro s hs; exact hs
  | cons a t ih => intro s hs; exact ih (f s a) (hf s a hs)

/-- Every record of the mapping has replica count at least one. -/
def instancesPos (apps : List (String × AppInfo)) : Prop :=
  ∀ p ∈ apps, 1 ≤ p.2.instances

/-- The inner loop of `k8s_apps` preserves `instancesPos`: creation seeds
    the count at one, an update increments it. -/
theorem instancesPos_step_cont (tznow : Int) (pod : Pod)
    (st : List (String × AppInfo) × List String) (cont : ContainerStatus)
    (h : instancesPos st.1) :
    instancesPos (k8s_step_cont tznow pod st cont).1 := by
  unfold k8s_step_cont
  split
  · exact h
  · split
    · exact h
    · split
      · split
        · intro p hp
          rcases List.mem_append.mp hp with h1 | h2
          · exact h p h1
          · rcases List.mem_singleton.mp h2 with rfl
            simp
        · dsimp only
          split
          · intro p hp
            rcases List.mem_map.mp hp with ⟨q, hq, rfl⟩
            by_cases hqn : q.1 = cont.name
            · simp only [updateApp, hqn, if_pos]
              omega
            · simp only [updateApp, hqn, if_neg, not_false_iff]
              exact h q hq
          · exact h
      · exact h

/-- The outer loop of `k8s_apps` preserves `instancesPos`. -/
theorem instancesPos_step_pod (tznow : Int)
    (st : List (String × AppInfo) × List String) (pod : Pod)
    (h : instancesPos st.1) :
    instancesPos (k8s_step_pod tznow st pod).1 := by
  unfold k8s_step_pod
  split
  · exact h
  · exact foldl_pres (fun s => instancesPos s.1) (k8s_step_cont tznow pod)
      (fun s c hs => instancesPos_step_cont tznow pod s c hs)
      pod.status.container_statuses st h

/-- A successful mapping lookup comes from a member of the mapping. -/
theorem lookupApp_eq_some {apps : List (String × AppInfo)} {name : String}
    {info : AppInfo} (h : lookupApp apps name = some info) :
    ∃ p ∈ apps, p.2 = info := by
  induction apps with
  | nil => simp [lookupApp] at h
  | cons p rest ih =>
    by_cases hp : p.1 = name
    · rw [lookupApp, if_pos hp] at h
      exact ⟨p, List.mem_cons_self p rest, Option.some_injective _ h⟩
    · rw [lookupApp, if_neg hp] at h
      rcases ih h with ⟨q, hq, hqe⟩
      exact ⟨q, List.mem_cons_of_mem p hq, hqe⟩

/-- Dropping the pods with a falsy container-status list does not change
    the fold state. -/
theorem foldl_filter_statuses (tznow : Int) (pods : List Pod) :
    ∀ (st : List (String × AppInfo) × List String),
      pods.foldl (k8s_step_pod tznow) st
        = (pods.filter
            (fun p => !p.status.container_statuses.isEmpty)).foldl
            (k8s_step_pod tznow) st := by
  induction pods with
  | nil => intro st; rfl
  | cons p rest ih =>
    intro st
    by_cases hp : p.status.container_statuses.isEmpty
    · have hstep : k8s_step_pod tznow st p = st := by
        unfold k8s_step_pod
        simp [hp]
      simp [List.filter_cons, hp, hstep, ih]
    · simp [List.filter_cons, hp, ih]

/-! ## Claim theorems -/

/-- C1: the claim says the dump file at cache dir / env_alias.tar.gz never
    exists after `pull()` returns.  The code violates it: the `finally`
    block of `Cmd.pull` calls `self._clean_temporary(alias)` with the bare
    alias instead of the dump file path, so after a fully successful pull
    the dump file is still on disk. -/
theorem C1_dump_file_survives_pull :
    (cmd_pull okOracle demoConfig "stage" "exchange" "/app" world0).2
      = none ∧
    dba_file "/app" (dba "stage" "exchange") ∈
      (cmd_pull okOracle demoConfig "stage" "exchange" "/app" world0).1.fs := by
  decide

/-- C2 counterexample: two ready instances of container "web", the fresher
    one (`podWeb1`, time-since-start 60) processed first, the staler one
    (`podWeb2`, time-since-start 110) second.  The resulting record's
    `pod_ips` does NOT contain the second instance's IP, refuting the
    claim that `pod_ips` contains both IPs regardless of processing
    order. -/
theorem C2_pod_ips_counterexample :
    (lookupApp (k8s_apps 160 [podWeb1, podWeb2]) "web").map
      (fun i => i.pod_ips.contains "10.0.0.2") = some false := by
  decide

/-- C2 amended: for two ready instances of the same container name with
    time-since-start t1 less than t2, in either processing order the
    record's canonical fields (alias, deployed text, restart count) are
    those of the t1 (freshest) instance; but `pod_ips` contains both IPs
    only when the staler instance is processed first — when the freshest
    comes first, the staler instance is not merged and only the freshest
    IP is recorded. -/
theorem C2_freshest_wins (name a1 a2 ip1 ip2 ho1 ho2 : String)
    (rc1 rc2 : Nat) (s1 s2 tznow : Int)
    (hname : ¬ name = "") (hfresh : tznow - s1 < tznow - s2) :
    lookupApp (k8s_apps tznow
        [mkReadyPod a1 ip1 ho1 name rc1 s1,
         mkReadyPod a2 ip2 ho2 name rc2 s2]) name
      = some { diff := tznow - s1, aliasName := a1,
               deployed := verbose_time (tznow - s1), restart_count := rc1,
               pod_ips := [ip1], host_ip := ho1, exec := none,
               instances := 1, on_rebuild := false } ∧
    lookupApp (k8s_apps tznow
        [mkReadyPod a2 ip2 ho2 name rc2 s2,
         mkReadyPod a1 ip1 ho1 name rc1 s1]) name
      = some { diff := tznow - s1, aliasName := a1,
               deployed := verbose_time (tznow - s1), restart_count := rc1,
               pod_ips := [ip2, ip1], host_ip := ho1, exec := none,
               instances := 2, on_rebuild := false } := by
  have hns : ¬ tznow - s2 < tznow - s1 := not_lt.mpr (le_of_lt hfresh)
  constructor <;>
    simp [k8s_apps, k8s_step_pod, k8s_step_cont, mkReadyPod, lookupApp,
      updateApp, fmt_runargs, hname, hfresh, hns, List.contains]

/-- C2 witness: the amended statement at the concrete pods `podWeb1` and
    `podWeb2`. -/
theorem C2_freshest_wins_witness :
    lookupApp (k8s_apps 160
        [mkReadyPod "web-1" "10.0.0.1" "h1" "web" 0 100,
         mkReadyPod "web-2" "10.0.0.2" "h2" "web" 3 50]) "web"
      = some { diff := 160 - 100, aliasName := "web-1",
               deployed := verbose_time (160 - 100), restart_count := 0,
               pod_ips := ["10.0.0.1"], host_ip := "h1", exec := none,
               instances := 1, on_rebuild := false } ∧
    lookupApp (k8s_apps 160
        [mkReadyPod "web-2" "10.0.0.2" "h2" "web" 3 50,
         mkReadyPod "web-1" "10.0.0.1" "h1" "web" 0 100]) "web"
      = some { diff := 160 - 100, aliasName := "web-1",
               deployed := verbose_time (160 - 100), restart_count := 0,
               pod_ips := ["10.0.0.2", "10.0.0.1"], host_ip := "h1",
               exec := none, instances := 2, on_rebuild := false } :=
  C2_freshest_wins "web" "web-1" "web-2" "10.0.0.1" "10.0.0.2" "h1" "h2"
    0 3 100 50 160 (by decide) (by decide)

/-- C7: every record that `k8s_apps` returns for a container name that had
    at least one ready instance has replica count at least one (the proof
    shows the invariant for every returned record). -/
theorem C7_ready_instance_replicas (tznow : Int) (pods : List Pod)
    (name : String) (info : AppInfo)
    (hready : ∃ p ∈ pods, ∃ c ∈ p.status.container_statuses,
        c.name = name ∧ c.ready = true ∧ c.started_at ≠ none)
    (hfound : lookupApp (k8s_apps tznow pods) name = some info) :
    1 ≤ info.instances := by
  have hpos : instancesPos (k8s_apps tznow pods) := by
    unfold k8s_apps
    refine foldl_pres (fun s => instancesPos s.1) (k8s_step_pod tznow)
      (fun s p hs => instancesPos_step_pod tznow s p hs) pods ([], []) ?_
    intro p hp
    simp at hp
  obtain ⟨p, hp, hpe⟩ := lookupApp_eq_some hfound
  rw [← hpe]
  exact hpos p hp

/-- C7 witness: the single ready pod `podWeb1` yields a record with
    replica count one. -/
theorem C7_ready_instance_replicas_witness :
    1 ≤ ({ diff := 60, aliasName := "web-1",
           deployed := verbose_time 60, restart_count := 0,
           pod_ips := ["10.0.0.1"], host_ip := "h1", exec := none,
           instances := 1, on_rebuild := false } : AppInfo).instances :=
  C7_ready_instance_replicas 160 [podWeb1] "web" _ (by decide) (by decide)

/-- C8: `k8s_apps` is not invariant under permutation of the pod list: a
    rebuilding instance observed after its container name's record was
    created (and never updated again) does not retroactively set
    `on_rebuild`, whereas observing it before creation does. -/
theorem C8_rebuild_flag_order_dependent :
    ([podWeb1, podWebRebuild].Perm [podWebRebuild, podWeb1]) ∧
    (lookupApp (k8s_apps 160 [podWeb1, podWebRebuild]) "web").map
        AppInfo.on_rebuild = some false ∧
    (lookupApp (k8s_apps 160 [podWebRebuild, podWeb1]) "web").map
        AppInfo.on_rebuild = some true ∧
    k8s_apps 160 [podWeb1, podWebRebuild]
      ≠ k8s_apps 160 [podWebRebuild, podWeb1] :=
  ⟨List.Perm.swap podWebRebuild podWeb1 [], by decide, by decide, by decide⟩

/-- C10: a pod whose container-status list is absent or empty contributes
    nothing: both the returned mapping and the full fold state (mapping and
    rebuild set) are the same as over the list with all such pods
    removed. -/
theorem C10_statusless_pods_skipped (tznow : Int) (pods : List Pod) :
    k8s_apps tznow pods
      = k8s_apps tznow
          (pods.filter (fun p => !p.status.container_statuses.isEmpty)) ∧
    pods.foldl (k8s_step_pod tznow) ([], [])
      = (pods.filter (fun p => !p.status.container_statuses.isEmpty)).foldl
          (k8s_step_pod tznow) ([], []) := by
  have h := foldl_filter_statuses tznow pods ([], [])
  exact ⟨congrArg Prod.fst h, h⟩

/-- C10 witness: the statement at a concrete pod list containing a pod
    with an empty container-status list. -/
theorem C10_statusless_pods_skipped_witness :
    k8s_apps 160 [podNoStatuses, podWeb1]
      = k8s_apps 160
          ([podNoStatuses, podWeb1].filter
            (fun p => !p.status.container_statuses.isEmpty)) ∧
    [podNoStatuses, podWeb1].foldl (k8s_step_pod 160) ([], [])
      = ([podNoStatuses, podWeb1].filter
          (fun p => !p.status.container_statuses.isEmpty)).foldl
          (k8s_step_pod 160) ([], []) :=
  C10_statusless_pods_skipped 160 [podNoStatuses, podWeb1]

/-- C3 counterexample: a dump output line containing "error:" makes the
    pipeline print a `DB_UNKNOWN` panel (the `DotError` is caught by the
    generic `except Exception` inside `_dump`), not a `DB_PG`-class one,
    and the dump file is still on disk afterwards because the final
    cleanup removes the alias-named path instead of the dump path. -/
theorem C3_error_abort_counterexample :
    (cmd_pull { okOracle with
        dumpLines := ["pg_dump: error: connection to server failed"] }
        demoConfig "stage" "exchange" "/app" world0).1.printed
      = [Panel.error Error.DB_UNKNOWN ["Check pull connection params"]] ∧
    dba_file "/app" (dba "stage" "exchange") ∈
      (cmd_pull { okOracle with
        dumpLines := ["pg_dump: error: connection to server failed"] }
        demoConfig "stage" "exchange" "/app" world0).1.fs := by
  decide

/-- C3 amended: if any dump output line contains "error:", the pipeline
    aborts with a `DB_UNKNOWN` failure and a non-zero exit, the restore
    step is executed zero times (only the dump subprocess is ever
    spawned), but the dump file is NOT deleted before `pull()` finishes —
    it remains on disk because the cleanup targets the bare alias path. -/
theorem C3_error_line_aborts (lines : List String)
    (hErr : ∃ l ∈ lines, strHas l "error:" = true) :
    (cmd_pull { okOracle with dumpLines := lines } demoConfig "stage"
        "exchange" "/app" world0).2 = some (PyExc.systemExit 1) ∧
    (cmd_pull { okOracle with dumpLines := lines } demoConfig "stage"
        "exchange" "/app" world0).1.printed
      = [Panel.error Error.DB_UNKNOWN ["Check pull connection params"]] ∧
    (cmd_pull { okOracle with dumpLines := lines } demoConfig "stage"
        "exchange" "/app" world0).1.spawned
      = [Proc.dump exchangeDB (dba_file "/app" (dba "stage" "exchange"))] ∧
    (cmd_pull { okOracle with dumpLines := lines } demoConfig "stage"
        "exchange" "/app" world0).1.fs
      = [dba_file "/app" (dba "stage" "exchange")] := by
  have hres := capture_dump_res_err lines hErr
  refine ⟨?_, ?_, ?_, ?_⟩ <;>
    simp [cmd_pull, pull_impl, dump_step, pg_remote, create_and_drop_exist,
      executeSql, clean_temporary, printPanel, addFile, hres, demoConfig,
      okOracle, envConf, lookupPull, dba, dba_file, exchangeDB,
      isPgErrorClass, isExceptionClass, excMsg, world0]

/-- C3 witness: the amended statement at a one-line dump output containing
    "error:". -/
theorem C3_error_line_aborts_witness :
    (cmd_pull { okOracle with dumpLines := ["pg_dump: error: refused"] }
        demoConfig "stage" "exchange" "/app" world0).2
      = some (PyExc.systemExit 1) ∧
    (cmd_pull { okOracle with dumpLines := ["pg_dump: error: refused"] }
        demoConfig "stage" "exchange" "/app" world0).1.printed
      = [Panel.error Error.DB_UNKNOWN ["Check pull connection params"]] ∧
    (cmd_pull { okOracle with dumpLines := ["pg_dump: error: refused"] }
        demoConfig "stage" "exchange" "/app" world0).1.spawned
      = [Proc.dump exchangeDB (dba_file "/app" (dba "stage" "exchange"))] ∧
    (cmd_pull { okOracle with dumpLines := ["pg_dump: error: refused"] }
        demoConfig "stage" "exchange" "/app" world0).1.fs
      = [dba_file "/app" (dba "stage" "exchange")] :=
  C3_error_line_aborts ["pg_dump: error: refused"] (by decide)

/-- C4 counterexample: when `CREATE DATABASE` raises `DuplicateDatabase`
    and the subsequent `DROP DATABASE ... WITH (FORCE)` itself fails, the
    failure surfaces as a `DB_PG` panel from `Cmd.pull`, not as
    `DB_PREPARE_LOCAL`: an exception raised inside the
    `except DuplicateDatabase` handler is not caught by the sibling
    `except Exception` clause of `_create_and_drop_exist`. -/
theorem C4_drop_failure_counterexample :
    (cmd_pull { okOracle with
        createRes1 := some PyExc.duplicateDatabase,
        dropRes := some (PyExc.pgError "cannot drop stage_exchange") }
        demoConfig "stage" "exchange" "/app" world0).1.printed
      = [Panel.error Error.DB_PG ["cannot drop stage_exchange"]] ∧
    Panel.error Error.DB_PREPARE_LOCAL ["cannot drop stage_exchange"] ∉
      (cmd_pull { okOracle with
        createRes1 := some PyExc.duplicateDatabase,
        dropRes := some (PyExc.pgError "cannot drop stage_exchange") }
        demoConfig "stage" "exchange" "/app" world0).1.printed := by
  decide

/-- C4 amended: on `DuplicateDatabase`, exactly one
    `DROP DATABASE ... WITH (FORCE)` is issued followed by exactly one
    `CREATE DATABASE` and nothing more (no loop); if the DROP itself fails
    with a driver error, no further statement is issued and the failure
    surfaces to the caller as a `DB_PG` error (the `PG_ERRORS` handler of
    `Cmd.pull`), not as `DB_PREPARE_LOCAL`, and it is not retried. -/
theorem C4_duplicate_one_drop_one_create (m : String) :
    (cmd_pull { okOracle with
        createRes1 := some PyExc.duplicateDatabase }
        demoConfig "stage" "exchange" "/app" world0).1.sqls
      = ["CREATE DATABASE stage_exchange;",
         "DROP DATABASE stage_exchange WITH (FORCE);",
         "CREATE DATABASE stage_exchange;"] ∧
    (cmd_pull { okOracle with
        createRes1 := some PyExc.duplicateDatabase }
        demoConfig "stage" "exchange" "/app" world0).2 = none ∧
    (cmd_pull { okOracle with
        createRes1 := some PyExc.duplicateDatabase,
        dropRes := some (PyExc.pgError m) }
        demoConfig "stage" "exchange" "/app" world0).1.sqls
      = ["CREATE DATABASE stage_exchange;",
         "DROP DATABASE stage_exchange WITH (FORCE);"] ∧
    (cmd_pull { okOracle with
        createRes1 := some PyExc.duplicateDatabase,
        dropRes := some (PyExc.pgError m) }
        demoConfig "stage" "exchange" "/app" world0).1.printed
      = [Panel.error Error.DB_PG [m]] ∧
    (cmd_pull { okOracle with
        createRes1 := some PyExc.duplicateDatabase,
        dropRes := some (PyExc.pgError m) }
        demoConfig "stage" "exchange" "/app" world0).2
      = some (PyExc.systemExit 1) := by
  exact ⟨by decide, by decide, rfl, rfl, rfl⟩

/-- C4 witness: the amended statement at a concrete DROP failure
    message. -/
theorem C4_duplicate_one_drop_one_create_witness :
    (cmd_pull { okOracle with
        createRes1 := some PyExc.duplicateDatabase }
        demoConfig "stage" "exchange" "/app" world0).1.sqls
      = ["CREATE DATABASE stage_exchange;",
         "DROP DATABASE stage_exchange WITH (FORCE);",
         "CREATE DATABASE stage_exchange;"] ∧
    (cmd_pull { okOracle with
        createRes1 := some PyExc.duplicateDatabase }
        demoConfig "stage" "exchange" "/app" world0).2 = none ∧
    (cmd_pull { okOracle with
        createRes1 := some PyExc.duplicateDatabase,
        dropRes := some (PyExc.pgError "drop denied") }
        demoConfig "stage" "exchange" "/app" world0).1.sqls
      = ["CREATE DATABASE stage_exchange;",
         "DROP DATABASE stage_exchange WITH (FORCE);"] ∧
    (cmd_pull { okOracle with
        createRes1 := some PyExc.duplicateDatabase,
        dropRes := some (PyExc.pgError "drop denied") }
        demoConfig "stage" "exchange" "/app" world0).1.printed
      = [Panel.error Error.DB_PG ["drop denied"]] ∧
    (cmd_pull { okOracle with
        createRes1 := some PyExc.duplicateDatabase,
        dropRes := some (PyExc.pgError "drop denied") }
        demoConfig "stage" "exchange" "/app" world0).2
      = some (PyExc.systemExit 1) :=
  C4_duplicate_one_drop_one_create "drop denied"

/-- C5: an alias absent from the resolved environment's pull map makes
    `Interface.pull` fail with the `Error.found` panel listing exactly that
    environment's configured aliases and a `SystemExit`; no subprocess is
    spawned and no SQL statement is executed (the world is otherwise
    untouched). -/
theorem C5_alias_not_found (o : PullOracle) (cfg : Config)
    (db env appDir : String) (ec : EnvConf)
    (henv : envConf cfg env = some ec)
    (hal : db ∉ ec.pull.map Prod.fst) :
    interface_pull o cfg db env appDir world0
      = ({ world0 with printed := [Panel.found db (ec.pull.map Prod.fst)] },
         some (PyExc.systemExit 1)) := by
  have henvok : env = "stage" ∨ env = "prod" := by
    by_cases h1 : env = "stage"
    · exact Or.inl h1
    · by_cases h2 : env = "prod"
      · exact Or.inr h2
      · rw [envConf, if_neg h1, if_neg h2] at henv
        exact absurd henv (Option.noConfusion)
  rcases henvok with rfl | rfl <;>
    simp [interface_pull, init_console_check, check_db_alias, henv, hal,
      printPanel, world0]

/-- C5 witness: alias "exchange" is configured only under stage, so
    pulling it in prod fails listing prod's aliases. -/
theorem C5_alias_not_found_witness :
    interface_pull okOracle demoConfig "exchange" "prod" "/app" world0
      = ({ world0 with
            printed := [Panel.found "exchange"
              (demoConfig.prod.pull.map Prod.fst)] },
         some (PyExc.systemExit 1)) :=
  C5_alias_not_found okOracle demoConfig "exchange" "prod" "/app"
    demoConfig.prod rfl (by decide)

/-- C6 counterexample: with a dump subprocess that has not exited 3
    seconds after its stream closes, the pull does NOT proceed as if the
    wait had returned: the result is not a successful return and the
    success info panel is never printed. -/
theorem C6_timeout_counterexample :
    (cmd_pull { okOracle with dumpWaitTimesOut := true } demoConfig
        "stage" "exchange" "/app" world0).2 ≠ none ∧
    (cmd_pull { okOracle with dumpWaitTimesOut := true } demoConfig
        "stage" "exchange" "/app" world0).1.printed
      ≠ [Panel.info (pull_info "stage" "exchange")] := by
  decide

/-- C6 amended: `Popen.wait(3)` raises `TimeoutExpired` when the process
    has not exited; no kill or escalation is performed, but the timeout is
    not silent — it surfaces as a `DB_UNKNOWN` pipeline failure with a
    non-zero exit, in both the dump and the restore step (after the dump
    timeout the restore is never spawned). -/
theorem C6_wait_timeout_surfaces :
    (cmd_pull { okOracle with dumpWaitTimesOut := true } demoConfig
        "stage" "exchange" "/app" world0).2 = some (PyExc.systemExit 1) ∧
    (cmd_pull { okOracle with dumpWaitTimesOut := true } demoConfig
        "stage" "exchange" "/app" world0).1.printed
      = [Panel.error Error.DB_UNKNOWN ["TimeoutExpired"]] ∧
    (cmd_pull { okOracle with dumpWaitTimesOut := true } demoConfig
        "stage" "exchange" "/app" world0).1.spawned
      = [Proc.dump exchangeDB (dba_file "/app" (dba "stage" "exchange"))] ∧
    (cmd_pull { okOracle with restoreWaitTimesOut := true } demoConfig
        "stage" "exchange" "/app" world0).2 = some (PyExc.systemExit 1) ∧
    (cmd_pull { okOracle with restoreWaitTimesOut := true } demoConfig
        "stage" "exchange" "/app" world0).1.printed
      = [Panel.error Error.DB_UNKNOWN ["TimeoutExpired"]] ∧
    (cmd_pull { okOracle with restoreWaitTimesOut := true } demoConfig
        "stage" "exchange" "/app" world0).1.spawned
      = [Proc.dump exchangeDB (dba_file "/app" (dba "stage" "exchange")),
         Proc.restore localDB (dba "stage" "exchange")
           (dba_file "/app" (dba "stage" "exchange"))] := by
  decide

/-- C9: restore output is never inspected for errors: `capture_restore`
    forwards every line (error-looking or not) to the status sink and
    returns no exception, and a pull whose restore subprocess emits any
    lines at all — including lines containing "error:" — completes as a
    success, printing the success info panel. -/
theorem C9_restore_output_not_inspected (lines : List String) (w : World) :
    capture_restore lines w
      = ({ w with statusUpdates := w.statusUpdates ++ lines }, none) ∧
    (cmd_pull { okOracle with restoreLines := lines } demoConfig "stage"
        "exchange" "/app" world0).2 = none ∧
    (cmd_pull { okOracle with restoreLines := lines } demoConfig "stage"
        "exchange" "/app" world0).1.printed
      = [Panel.info (pull_info "stage" "exchange")] := by
  exact ⟨rfl, rfl, rfl⟩

/-- C9 witness: a restore stream consisting of an error-reporting line
    still completes the pull as a success. -/
theorem C9_restore_output_not_inspected_witness :
    capture_restore ["pg_restore: error: could not execute query"] world0
      = ({ world0 with statusUpdates := world0.statusUpdates ++
            ["pg_restore: error: could not execute query"] }, none) ∧
    (cmd_pull { okOracle with
        restoreLines := ["pg_restore: error: could not execute query"] }
        demoConfig "stage" "exchange" "/app" world0).2 = none ∧
    (cmd_pull { okOracle with
        restoreLines := ["pg_restore: error: could not execute query"] }
        demoConfig "stage" "exchange" "/app" world0).1.printed
      = [Panel.info (pull_info "stage" "exchange")] :=
  C9_restore_output_not_inspected
    ["pg_restore: error: could not execute query"] world0
